import Mathlib

/-!
Verification of the ToDo-API (Eisenhower-matrix task tracker) core logic
against its natural-language specification.

Shallow embedding conventions:
* A `datetime` instant is an integer number of minutes on a single UTC
  timeline (`Int`, may be negative).  Python's `.date()` is floor division
  by the 1440 minutes of a day; for the positive constant divisor 1440,
  floor division coincides with Lean's Euclidean `/` on `Int`, so
  `dateOf dt = dt / 1440`.  The `.days` of a difference of two dates is
  then the difference of the two `dateOf` values, exactly as in Python.
* Python dict / SQL NULL optional values become `Option`.
* SQL three-valued comparisons (`x <= y` is NULL, hence not counted by a
  `CASE WHEN`, whenever either side is NULL) become `Bool`-valued
  comparisons on `Option Int` that return `false` when either side is
  `none`.
* The bot's module-level dicts (`SESSIONS`, `TIMEZONE_OFFSETS`,
  `LAST_REMINDER_SENT`) become a `BotState` record of total functions
  `Int → Option _` keyed by chat id.
-/

/-- Minutes in a day; `dt / 1440` is the calendar date of the instant `dt`
(Python `datetime.date()`: floor division, equal to Euclidean division for
the positive divisor 1440). -/
def dateOf (dt : Int) : Int := dt / 1440

/-- Embedding of `src/utils.py`, `is_urgent_from_deadline`:
`days_left = (deadline_at.date() - datetime.utcnow().date()).days` and the
result is `days_left <= 3`; `False` when the deadline is `None`.  The
implicit `datetime.utcnow()` is passed explicitly as `nowUtc`. -/
def is_urgent_from_deadline (deadline_at : Option Int) (nowUtc : Int) : Bool :=
  match deadline_at with
  | none => false
  | some d => dateOf d - dateOf nowUtc ≤ 3

/-- Embedding of `src/utils.py`, `calc_quadrant`. -/
def calc_quadrant (is_important : Bool) (deadline_at : Option Int) (nowUtc : Int) : String :=
  let urgent := is_urgent_from_deadline deadline_at nowUtc
  if is_important && urgent then "Q1"
  else if is_important && !urgent then "Q2"
  else if !is_important && urgent then "Q3"
  else "Q4"

namespace Backend

/-- Row of the `tasks` table as used across `src/backend/routers/tasks.py`
and `src/routers/stats.py`.  `models/tasks.py` itself is not under `src/`;
the columns are the ones read and written by those routers
(title, description, is_important, quadrant, deadline_at, completed,
completed_at, user_id, created_at). -/
structure TaskDb where
  title : String
  description : Option String
  is_important : Bool
  quadrant : String
  deadline_at : Option Int
  completed : Bool
  completed_at : Option Int
  user_id : Int
  created_at : Int
deriving Repr, DecidableEq

/-- `src/schemas.py`, `TaskCreate` (= `TaskBase`): title, optional
description, importance flag, optional deadline. -/
structure TaskCreate where
  title : String
  description : Option String
  is_important : Bool
  deadline_at : Option Int
deriving Repr, DecidableEq

/-- `src/schemas.py`, `TaskUpdate`.  Every field is optional; the routers
apply `model_dump(exclude_unset=True)`, so `none` here means "field absent
from the request" and `some v` means "field present with value `v`".
`deadline_at` can be present and explicitly null (`some none`).
There is no `completed_at` field and no `quadrant` field in the schema.
(Explicit nulls for the free-text `title`/`description` fields are
orthogonal to every property verified here and are not distinguished
from absence.) -/
structure TaskUpdate where
  title : Option String := none
  description : Option String := none
  is_important : Option Bool := none
  is_urgent : Option Bool := none
  completed : Option Bool := none
  deadline_at : Option (Option Int) := none
deriving Repr, DecidableEq

/-- The `for field, value in update_data.items(): setattr(task, field, value)`
loop of `src/backend/routers/tasks.py::update_task`: each present field
overwrites the corresponding attribute.  A present `is_urgent` is assigned
onto the ORM object but corresponds to no column used anywhere, so no
tracked field changes. -/
def applyUpdate (t : TaskDb) (u : TaskUpdate) : TaskDb :=
  { t with
    title := u.title.getD t.title
    description := u.description.or t.description
    is_important := u.is_important.getD t.is_important
    completed := u.completed.getD t.completed
    deadline_at := u.deadline_at.getD t.deadline_at }

/-- `src/backend/routers/tasks.py::create_task` (lines 23-46): derives the
quadrant with `calc_quadrant(task.is_important, task.deadline_at)`, stores
`completed=False` and does not set `completed_at` (NULL column default).
`createdAt` stands for the column default applied by the database. -/
def create_task (req : TaskCreate) (userId : Int) (nowUtc : Int) (createdAt : Int) : TaskDb :=
  { title := req.title
    description := req.description
    is_important := req.is_important
    quadrant := calc_quadrant req.is_important req.deadline_at nowUtc
    deadline_at := req.deadline_at
    completed := false
    completed_at := none
    user_id := userId
    created_at := createdAt }

/-- `src/backend/routers/tasks.py::update_task` (lines 240-251): applies
the present fields, then recomputes the quadrant with `calc_quadrant`
exactly when `is_important` or `deadline_at` is among the updated keys. -/
def update_task (t : TaskDb) (u : TaskUpdate) (nowUtc : Int) : TaskDb :=
  let t' := applyUpdate t u
  if u.is_important.isSome || u.deadline_at.isSome then
    { t' with quadrant := calc_quadrant t'.is_important t'.deadline_at nowUtc }
  else
    t'

/-- `src/backend/routers/tasks.py::complete_task` (lines 254-284): sets
`completed = True` and `completed_at = datetime.now()` (the only writer of
`completed_at`). -/
def complete_task (t : TaskDb) (nowServer : Int) : TaskDb :=
  { t with completed := true, completed_at := some nowServer }

end Backend

namespace Stats

open Backend

/-- SQL three-valued `a <= b` as used in a `CASE WHEN`: a comparison with
NULL on either side is NULL, which does not satisfy the WHEN clause. -/
def sqlLe (a b : Option Int) : Bool :=
  match a, b with
  | some x, some y => x ≤ y
  | _, _ => false

/-- SQL three-valued `a > b` under a `CASE WHEN` (NULL operand ⇒ not counted). -/
def sqlGt (a b : Option Int) : Bool :=
  match a, b with
  | some x, some y => y < x
  | _, _ => false

/-- Contribution of one row to the `completed_on_time` sum of
`src/routers/stats.py::get_deadline_stats`:
`CASE WHEN completed = true AND completed_at <= deadline_at THEN 1 ELSE 0`. -/
def onTimeCase (t : TaskDb) : Nat :=
  if t.completed && sqlLe t.completed_at t.deadline_at then 1 else 0

/-- Contribution to `completed_late`:
`CASE WHEN completed = true AND completed_at > deadline_at THEN 1 ELSE 0`. -/
def lateCase (t : TaskDb) : Nat :=
  if t.completed && sqlGt t.completed_at t.deadline_at then 1 else 0

/-- Contribution to `on_plan_pending`: `CASE WHEN completed = false AND
deadline_at IS NOT NULL AND deadline_at > now THEN 1 ELSE 0`. -/
def onPlanCase (t : TaskDb) (nowUtc : Int) : Nat :=
  if !t.completed && t.deadline_at.isSome && sqlGt t.deadline_at (some nowUtc) then 1 else 0

/-- Contribution to `overdue_pending`: `CASE WHEN completed = false AND
deadline_at IS NOT NULL AND deadline_at <= now THEN 1 ELSE 0`. -/
def overdueCase (t : TaskDb) (nowUtc : Int) : Nat :=
  if !t.completed && t.deadline_at.isSome && sqlLe t.deadline_at (some nowUtc) then 1 else 0

/-- `src/schemas.py::TimingStatsResponse` (the `overtime_pending` response
field is filled from the `overdue_pending` sum). -/
structure TimingStatsResponse where
  completed_on_time : Nat
  completed_late : Nat
  on_plan_pending : Nat
  overtime_pending : Nat
deriving Repr, DecidableEq

/-- `src/routers/stats.py::get_deadline_stats` (lines 68-135): the four
`SUM(CASE ...)` aggregates over all task rows, evaluated at
`now_utc = datetime.now(timezone.utc)`. -/
def get_deadline_stats (tasks : List TaskDb) (nowUtc : Int) : TimingStatsResponse :=
  { completed_on_time := (tasks.map onTimeCase).sum
    completed_late := (tasks.map lateCase).sum
    on_plan_pending := (tasks.map (onPlanCase · nowUtc)).sum
    overtime_pending := (tasks.map (overdueCase · nowUtc)).sum }

/-- `src/routers/stats.py::get_pending_deadlines` (lines 42-66): selects
the incomplete tasks, skips those without a deadline, and annotates each
with `days_left = (task.deadline_at.date() - today).days` where
`today = datetime.now().date()` is the SERVER-LOCAL calendar date
(passed here as `todayServerLocal`).  Only the `days_left` annotation is
modelled; title, description and created_at are carried through unchanged. -/
def get_pending_deadlines (tasks : List TaskDb) (todayServerLocal : Int) : List Int :=
  (tasks.filter (fun t => !t.completed)).filterMap
    (fun t => t.deadline_at.map (fun d => dateOf d - todayServerLocal))

/-- Modelled from the spec: the `daysRemaining` the specification requires
for the scheduler feed — "annotated with `daysRemaining` computed in UTC",
i.e. the whole-day difference between the deadline's date and the current
UTC date. -/
def days_left_utc_spec (deadline : Int) (nowUtc : Int) : Int :=
  dateOf deadline - dateOf nowUtc

end Stats

namespace InMem

/-- A task dict of the legacy in-memory router (`src/routers/tasks.py`
over `tasks_db`).  The seeded dicts carry id, title, description,
is_important, is_urgent, quadrant, completed and created_at; `deadline_at`
and `completed_at` keys are absent until an update / completion adds them
(`none` models the absent key). -/
structure TaskMem where
  id : Int
  title : String
  description : Option String
  is_important : Bool
  is_urgent : Bool
  quadrant : String
  completed : Bool
  created_at : Int
  deadline_at : Option Int := none
  completed_at : Option Int := none
deriving Repr, DecidableEq

/-- `src/routers/tasks.py::update_task` (lines 166-192): applies every
present field of the `TaskUpdate` (including a caller-supplied
`is_urgent`), then recomputes the quadrant from the STORED
`is_important`/`is_urgent` pair — not from the deadline — exactly when
`is_important` or `is_urgent` was among the updated keys. -/
def update_task (t : TaskMem) (u : Backend.TaskUpdate) : TaskMem :=
  let t' := { t with
    title := u.title.getD t.title
    description := u.description.or t.description
    is_important := u.is_important.getD t.is_important
    is_urgent := u.is_urgent.getD t.is_urgent
    completed := u.completed.getD t.completed
    deadline_at := u.deadline_at.getD t.deadline_at }
  if u.is_important.isSome || u.is_urgent.isSome then
    { t' with quadrant :=
        if t'.is_important && t'.is_urgent then "Q1"
        else if t'.is_important && !t'.is_urgent then "Q2"
        else if !t'.is_important && t'.is_urgent then "Q3"
        else "Q4" }
  else
    t'

end InMem

namespace Bot

/-- `src/bot/bot.py::UserSession`: access token and email. -/
structure UserSession where
  access_token : String
  email : String
deriving Repr, DecidableEq

/-- The three module-level dicts of `src/bot/bot.py`:
`SESSIONS : chat_id -> UserSession`,
`TIMEZONE_OFFSETS : chat_id -> int` and
`LAST_REMINDER_SENT : chat_id -> datetime`. -/
structure BotState where
  sessions : Int → Option UserSession
  timezone_offsets : Int → Option Int
  last_reminder_sent : Int → Option Int

/-- `src/bot/bot.py::_get_utc_offset_hours`:
`TIMEZONE_OFFSETS.get(chat_id, 3)`. -/
def get_utc_offset_hours (s : BotState) (chat_id : Int) : Int :=
  (s.timezone_offsets chat_id).getD 3

/-- `src/bot/bot.py::_local_to_utc`:
`dt_local - timedelta(hours=offset)` (the result is then tagged with
`tzinfo=timezone.utc`; the tag does not change the wall-clock value). -/
def local_to_utc (s : BotState) (chat_id : Int) (dt_local : Int) : Int :=
  dt_local - 60 * get_utc_offset_hours s chat_id

/-- `src/bot/bot.py::_utc_to_local`: `dt_utc + timedelta(hours=offset)`
(for a non-null input; the `tzinfo` normalization does not change the
wall-clock value). -/
def utc_to_local (s : BotState) (chat_id : Int) (dt_utc : Int) : Int :=
  dt_utc + 60 * get_utc_offset_hours s chat_id

/-- `src/bot/bot.py::cmd_timezone` (lines 153-182), state effect for an
already-parsed integer offset: reject (reply only, no state change) unless
`-12 <= offset <= 14`, otherwise overwrite `TIMEZONE_OFFSETS[chat_id]`
unconditionally.  The boolean reports whether the offset was accepted. -/
def cmd_timezone (s : BotState) (chat_id : Int) (offset : Int) : BotState × Bool :=
  if -12 ≤ offset ∧ offset ≤ 14 then
    ({ s with timezone_offsets :=
        fun c => if c = chat_id then some offset else s.timezone_offsets c },
      true)
  else
    (s, false)

/-- `src/bot/bot.py::cmd_logout` (lines 266-273): `del SESSIONS[chat_id]`
when present (no other dict is touched). -/
def cmd_logout (s : BotState) (chat_id : Int) : BotState :=
  { s with sessions := fun c => if c = chat_id then none else s.sessions c }

/-- `src/bot/bot.py::login_password` (line 261), state effect of a
successful login: `SESSIONS[chat_id] = UserSession(token, email)`. -/
def login_password (s : BotState) (chat_id : Int) (token email : String) : BotState :=
  { s with sessions :=
      fun c => if c = chat_id then some ⟨token, email⟩ else s.sessions c }

/-- 24 hours in minutes (`timedelta(hours=24)` of the cooldown check). -/
def hours24 : Int := 24 * 60

/-- Body of `reminders_worker` after the cooldown check, for one session:
fetch `/stats/deadlines` (`none` models the swallowed per-session
exception), filter to `-1 <= days_left <= 1`, and when the filtered list
is non-empty send one aggregate message and set
`LAST_REMINDER_SENT[chat_id] = now`.  The boolean reports whether a
message was sent to this chat. -/
def reminders_try (now : Int) (fetch : Int → Option (List Int))
    (s : BotState) (chat_id : Int) : BotState × Bool :=
  match fetch chat_id with
  | none => (s, false)
  | some days =>
    if (days.filter (fun d => decide (-1 ≤ d ∧ d ≤ 1))).isEmpty then
      (s, false)
    else
      ({ s with last_reminder_sent :=
          fun c => if c = chat_id then some now else s.last_reminder_sent c },
        true)

/-- One session's turn inside the `for chat_id, session in SESSIONS.items()`
loop of `src/bot/bot.py::reminders_worker` (lines 664-700): skip when a
last-reminder timestamp exists and less than 24 hours have elapsed
(a `datetime` is always truthy, so `if last_sent:` is a presence test),
otherwise proceed to the fetch-filter-send body. -/
def reminders_step (now : Int) (fetch : Int → Option (List Int))
    (s : BotState) (chat_id : Int) : BotState × Bool :=
  match s.last_reminder_sent chat_id with
  | some last =>
    if now - last < hours24 then (s, false)
    else reminders_try now fetch s chat_id
  | none => reminders_try now fetch s chat_id

/-- One full poll cycle of `reminders_worker`: `now` is captured once,
then every known session (`chats` = the keys of `SESSIONS`) is processed
in order.  Returns the final state and the list of chats that were sent a
reminder this cycle. -/
def reminders_cycle (now : Int) (fetch : Int → Option (List Int))
    (s : BotState) (chats : List Int) : BotState × List Int :=
  match chats with
  | [] => (s, [])
  | c :: rest =>
    let r1 := reminders_step now fetch s c
    let r2 := reminders_cycle now fetch r1.1 rest
    (r2.1, if r1.2 then c :: r2.2 else r2.2)

end Bot

/-- C1: classification is total and follows the truth table on
(importance, urgency); urgency is false without a deadline and otherwise
holds iff the whole-day date difference to the deadline is at most 3.
A deadline 5 days ahead with importance gives Q2, 1 day ahead gives Q1,
and a non-important deadline 1 day in the past gives Q3. -/
theorem calc_quadrant_truth_table (imp : Bool) (dl : Option Int) (now : Int) :
    (calc_quadrant imp dl now = "Q1" ↔
      (imp = true ∧ is_urgent_from_deadline dl now = true)) ∧
    (calc_quadrant imp dl now = "Q2" ↔
      (imp = true ∧ is_urgent_from_deadline dl now = false)) ∧
    (calc_quadrant imp dl now = "Q3" ↔
      (imp = false ∧ is_urgent_from_deadline dl now = true)) ∧
    (calc_quadrant imp dl now = "Q4" ↔
      (imp = false ∧ is_urgent_from_deadline dl now = false)) ∧
    (is_urgent_from_deadline dl now = true ↔
      (∃ d, dl = some d ∧ dateOf d - dateOf now ≤ 3)) ∧
    calc_quadrant true (some (now + 5 * 1440)) now = "Q2" ∧
    calc_quadrant true (some (now + 1 * 1440)) now = "Q1" ∧
    calc_quadrant false (some (now - 1 * 1440)) now = "Q3" := by
  have h5 : dateOf (now + 5 * 1440) - dateOf now = 5 := by
    unfold dateOf; omega
  have h1 : dateOf (now + 1 * 1440) - dateOf now = 1 := by
    unfold dateOf; omega
  have hm1 : dateOf (now - 1 * 1440) - dateOf now = -1 := by
    unfold dateOf; omega
  cases imp <;> cases dl <;>
    simp_all [calc_quadrant, is_urgent_from_deadline] <;>
    split <;> simp_all

/-- Helper: one row contributes at most 1 across the four `CASE` sums, and
nothing at all when it has no deadline. -/
theorem caseSum_le_hasDeadline (t : Backend.TaskDb) (now : Int) :
    Stats.onTimeCase t + Stats.lateCase t
      + Stats.onPlanCase t now + Stats.overdueCase t now
      ≤ (if t.deadline_at.isSome then 1 else 0) := by
  rcases t with ⟨ti, de, imp, q, dl, c, ca, uid, cr⟩
  cases c <;> cases dl <;> cases ca <;>
    simp [Stats.onTimeCase, Stats.lateCase, Stats.onPlanCase,
      Stats.overdueCase, Stats.sqlLe, Stats.sqlGt] <;>
    split_ifs <;> omega

/-- Helper: the four aggregate sums together never exceed the number of
rows that have a deadline. -/
theorem statsSum_le_deadlineCount (tasks : List Backend.TaskDb) (now : Int) :
    (tasks.map Stats.onTimeCase).sum + (tasks.map Stats.lateCase).sum
      + (tasks.map (Stats.onPlanCase · now)).sum
      + (tasks.map (Stats.overdueCase · now)).sum
      ≤ (tasks.filter (fun t => t.deadline_at.isSome)).length := by
  induction tasks with
  | nil => simp
  | cons x tl ih =>
    have hx := caseSum_le_hasDeadline x now
    by_cases hd : x.deadline_at.isSome <;>
      simp [List.filter_cons, hd] at hx ⊢ <;>
      omega

/-- C3: each task with a deadline lands in at most one of the four timing
counters, the four counts sum to at most the number of tasks with a
deadline, and an incomplete task with no deadline is counted in neither
pending bucket. -/
theorem get_deadline_stats_mutually_exclusive
    (tasks : List Backend.TaskDb) (now : Int) :
    (∀ t : Backend.TaskDb, t.deadline_at.isSome →
      Stats.onTimeCase t + Stats.lateCase t
        + Stats.onPlanCase t now + Stats.overdueCase t now ≤ 1) ∧
    ((Stats.get_deadline_stats tasks now).completed_on_time
        + (Stats.get_deadline_stats tasks now).completed_late
        + (Stats.get_deadline_stats tasks now).on_plan_pending
        + (Stats.get_deadline_stats tasks now).overtime_pending
      ≤ (tasks.filter (fun t => t.deadline_at.isSome)).length) ∧
    (∀ t : Backend.TaskDb, t.deadline_at = none → t.completed = false →
      Stats.onPlanCase t now = 0 ∧ Stats.overdueCase t now = 0) := by
  refine ⟨fun t ht => ?_, ?_, fun t hdl hc => ?_⟩
  · have := caseSum_le_hasDeadline t now
    simp [ht] at this
    exact this
  · simpa [Stats.get_deadline_stats] using statsSum_le_deadlineCount tasks now
  · simp [Stats.onPlanCase, Stats.overdueCase, hdl]

/-- Witness for C3 at a concrete input: a task with a deadline, on-time
completed, plus an incomplete task without a deadline. -/
theorem get_deadline_stats_mutually_exclusive_witness :
    Stats.onPlanCase
        { title := "b", description := none, is_important := false,
          quadrant := "Q4", deadline_at := none, completed := false,
          completed_at := none, user_id := 1, created_at := 0 } 0 = 0 ∧
    Stats.overdueCase
        { title := "b", description := none, is_important := false,
          quadrant := "Q4", deadline_at := none, completed := false,
          completed_at := none, user_id := 1, created_at := 0 } 0 = 0 ∧
    Stats.onTimeCase
        { title := "a", description := none, is_important := true,
          quadrant := "Q1", deadline_at := some 10, completed := true,
          completed_at := some 5, user_id := 1, created_at := 0 }
      + Stats.lateCase
        { title := "a", description := none, is_important := true,
          quadrant := "Q1", deadline_at := some 10, completed := true,
          completed_at := some 5, user_id := 1, created_at := 0 }
      + Stats.onPlanCase
        { title := "a", description := none, is_important := true,
          quadrant := "Q1", deadline_at := some 10, completed := true,
          completed_at := some 5, user_id := 1, created_at := 0 } 0
      + Stats.overdueCase
        { title := "a", description := none, is_important := true,
          quadrant := "Q1", deadline_at := some 10, completed := true,
          completed_at := some 5, user_id := 1, created_at := 0 } 0 ≤ 1 := by
  refine ⟨(get_deadline_stats_mutually_exclusive [] 0).2.2 _ rfl rfl |>.1,
    (get_deadline_stats_mutually_exclusive [] 0).2.2 _ rfl rfl |>.2,
    (get_deadline_stats_mutually_exclusive [] 0).1 _ (by decide)⟩

/-- C7 counterexample: a completed task with no deadline is NOT counted as
`completed_on_time` — the SQL `completed_at <= deadline_at` comparison is
NULL, so it is counted in neither completed bucket. -/
theorem completed_no_deadline_counted_nowhere :
    Stats.get_deadline_stats
        [{ title := "done", description := none, is_important := false,
           quadrant := "Q2", deadline_at := none, completed := true,
           completed_at := some 100, user_id := 1, created_at := 0 }] 0
      = { completed_on_time := 0, completed_late := 0,
          on_plan_pending := 0, overtime_pending := 0 } := by
  decide

/-- C7 amended: a task with no deadline — completed or not — contributes
to none of the four timing buckets: prepending it to any task list leaves
the whole aggregate unchanged (in particular an incomplete no-deadline
task is in neither pending bucket). -/
theorem no_deadline_task_changes_no_bucket
    (tasks : List Backend.TaskDb) (now : Int) (t : Backend.TaskDb)
    (hdl : t.deadline_at = none) :
    Stats.get_deadline_stats (t :: tasks) now
      = Stats.get_deadline_stats tasks now := by
  rcases t with ⟨ti, de, imp, q, dl, c, ca, uid, cr⟩
  cases hdl
  cases ca <;> cases c <;>
    simp [Stats.get_deadline_stats, Stats.onTimeCase, Stats.lateCase,
      Stats.onPlanCase, Stats.overdueCase, Stats.sqlLe, Stats.sqlGt]

/-- Witness for the amended C7 at a concrete input. -/
theorem no_deadline_task_changes_no_bucket_witness :
    Stats.get_deadline_stats
        [{ title := "x", description := none, is_important := false,
           quadrant := "Q4", deadline_at := none, completed := false,
           completed_at := none, user_id := 2, created_at := 0 }] 7
      = Stats.get_deadline_stats [] 7 := by
  exact no_deadline_task_changes_no_bucket [] 7 _ rfl

/-- C6: the pending-deadlines query computes `days_left` against the
server's LOCAL calendar date (`datetime.now().date()`), not the UTC date.
At 23:30 UTC on day 100 with the server clock at UTC+3, the server-local
date is already day 101; a deadline at 10:00 UTC on day 101 (tomorrow in
UTC) is annotated `days_left = 0` while the UTC computation the spec
requires gives 1. -/
theorem get_pending_deadlines_server_local_divergence :
    dateOf (100 * 1440 + 1410) = 100 ∧
    dateOf (100 * 1440 + 1410 + 180) = 101 ∧
    Stats.get_pending_deadlines
        [{ title := "due-tomorrow", description := none,
           is_important := true, quadrant := "Q1",
           deadline_at := some (101 * 1440 + 600), completed := false,
           completed_at := none, user_id := 1, created_at := 0 }]
        (dateOf (100 * 1440 + 1410 + 180)) = [0] ∧
    Stats.days_left_utc_spec (101 * 1440 + 600) (100 * 1440 + 1410) = 1 := by
  decide

/-- C9: the update endpoint never writes `completed_at` (the schema has no
such field), `complete_task` is its only writer, creation leaves it NULL,
and a row with `completed_at` NULL is counted in neither completed bucket
— so a task marked completed only through an update is counted neither as
on time nor as late. -/
theorem update_never_sets_completed_at
    (t : Backend.TaskDb) (u : Backend.TaskUpdate)
    (req : Backend.TaskCreate) (uid nowUtc createdAt nowServer : Int) :
    (Backend.update_task t u nowUtc).completed_at = t.completed_at ∧
    (Backend.create_task req uid nowUtc createdAt).completed_at = none ∧
    (Backend.complete_task t nowServer).completed_at = some nowServer ∧
    (t.completed_at = none → u.completed = some true →
      (Backend.update_task t u nowUtc).completed = true ∧
      (Backend.update_task t u nowUtc).completed_at = none ∧
      Stats.onTimeCase (Backend.update_task t u nowUtc) = 0 ∧
      Stats.lateCase (Backend.update_task t u nowUtc) = 0) := by
  have hca : (Backend.update_task t u nowUtc).completed_at = t.completed_at := by
    simp only [Backend.update_task, Backend.applyUpdate]
    split <;> rfl
  refine ⟨hca, rfl, rfl, fun hnone hctrue => ?_⟩
  have hcomp : (Backend.update_task t u nowUtc).completed = true := by
    simp only [Backend.update_task, Backend.applyUpdate, hctrue,
      Option.getD_some]
    split <;> rfl
  refine ⟨hcomp, hca.trans hnone, ?_, ?_⟩ <;>
    simp [Stats.onTimeCase, Stats.lateCase, Stats.sqlLe, Stats.sqlGt,
      hca.trans hnone]

/-- Witness for C9 at a concrete input: a fresh task marked completed via
the update endpoint keeps `completed_at` NULL and counts in neither
completed bucket. -/
theorem update_never_sets_completed_at_witness :
    (Backend.update_task
        { title := "t", description := none, is_important := true,
          quadrant := "Q2", deadline_at := some 500, completed := false,
          completed_at := none, user_id := 1, created_at := 0 }
        { completed := some true } 0).completed = true ∧
    (Backend.update_task
        { title := "t", description := none, is_important := true,
          quadrant := "Q2", deadline_at := some 500, completed := false,
          completed_at := none, user_id := 1, created_at := 0 }
        { completed := some true } 0).completed_at = none ∧
    Stats.onTimeCase (Backend.update_task
        { title := "t", description := none, is_important := true,
          quadrant := "Q2", deadline_at := some 500, completed := false,
          completed_at := none, user_id := 1, created_at := 0 }
        { completed := some true } 0) = 0 ∧
    Stats.lateCase (Backend.update_task
        { title := "t", description := none, is_important := true,
          quadrant := "Q2", deadline_at := some 500, completed := false,
          completed_at := none, user_id := 1, created_at := 0 }
        { completed := some true } 0) = 0 := by
  exact (update_never_sets_completed_at _ _
    { title := "r", description := none, is_important := false,
      deadline_at := none } 1 0 0 0).2.2.2 rfl rfl

/-- C5 counterexample: in the legacy in-memory router a caller CAN set the
urgency that determines the quadrant.  Updating the seeded Q2 task
(important, not urgent, no deadline) with only `is_urgent = true` stores
quadrant Q1, while the pure classification of its importance flag and
(absent) deadline is Q2 — so after this mutation the stored quadrant is
not the pure function of (importance, deadline, evaluation time). -/
theorem inmem_update_sets_urgency_directly :
    (InMem.update_task
        { id := 2, title := "t2", description := none,
          is_important := true, is_urgent := false, quadrant := "Q2",
          completed := false, created_at := 0 }
        { is_urgent := some true }).quadrant = "Q1" ∧
    (InMem.update_task
        { id := 2, title := "t2", description := none,
          is_important := true, is_urgent := false, quadrant := "Q2",
          completed := false, created_at := 0 }
        { is_urgent := some true }).is_important = true ∧
    (InMem.update_task
        { id := 2, title := "t2", description := none,
          is_important := true, is_urgent := false, quadrant := "Q2",
          completed := false, created_at := 0 }
        { is_urgent := some true }).deadline_at = none ∧
    calc_quadrant true none 0 = "Q2" ∧
    ("Q1" : String) ≠ "Q2" := by
  refine ⟨rfl, rfl, rfl, rfl, by decide⟩

/-- C5 amended: in the database-backed router the stored quadrant is the
pure `calc_quadrant` of (importance, deadline) at the mutation's
evaluation time — derived at creation, recomputed whenever an update
carries `is_important` or `deadline_at`, left unchanged when an update
carries neither — and the quadrant field itself is not settable by a
caller (absent from `TaskUpdate`).  In the legacy in-memory router,
however, the quadrant after an update carrying `is_urgent` is the truth
table of the stored importance and the CALLER-SUPPLIED urgency, with the
deadline ignored. -/
theorem quadrant_recompute_rule
    (t : Backend.TaskDb) (u : Backend.TaskUpdate)
    (req : Backend.TaskCreate) (uid nowUtc createdAt : Int)
    (tm : InMem.TaskMem) (b : Bool) :
    (Backend.create_task req uid nowUtc createdAt).quadrant
        = calc_quadrant req.is_important req.deadline_at nowUtc ∧
    (u.is_important.isSome ∨ u.deadline_at.isSome →
      (Backend.update_task t u nowUtc).quadrant
        = calc_quadrant (Backend.update_task t u nowUtc).is_important
            (Backend.update_task t u nowUtc).deadline_at nowUtc) ∧
    (u.is_important = none → u.deadline_at = none →
      (Backend.update_task t u nowUtc).quadrant = t.quadrant) ∧
    ((InMem.update_task tm { is_urgent := some b }).quadrant
        = if tm.is_important && b then "Q1"
          else if tm.is_important && !b then "Q2"
          else if !tm.is_important && b then "Q3"
          else "Q4") ∧
    (InMem.update_task tm {}).quadrant = tm.quadrant := by
  refine ⟨rfl, fun h => ?_, fun h1 h2 => ?_, ?_, rfl⟩
  · have hcond : (u.is_important.isSome || u.deadline_at.isSome) = true := by
      rcases h with h | h <;> simp [h]
    simp only [Backend.update_task, Backend.applyUpdate, hcond, if_true]
  · simp only [Backend.update_task, Backend.applyUpdate, h1, h2,
      Option.isSome_none, Bool.or_self, Bool.false_eq_true, if_false]
  · simp only [InMem.update_task, Option.isSome_some, Option.isSome_none,
      Bool.or_true, Bool.true_or, if_true, Option.getD_some,
      Option.getD_none]

/-- Witness for the amended C5 at concrete inputs. -/
theorem quadrant_recompute_rule_witness :
    (Backend.update_task
        { title := "w", description := none, is_important := false,
          quadrant := "Q4", deadline_at := none, completed := false,
          completed_at := none, user_id := 1, created_at := 0 }
        { deadline_at := some (some 1440) } 0).quadrant
      = calc_quadrant false (some 1440) 0 ∧
    (Backend.update_task
        { title := "w", description := none, is_important := false,
          quadrant := "Q4", deadline_at := none, completed := false,
          completed_at := none, user_id := 1, created_at := 0 }
        { title := some "renamed" } 0).quadrant = "Q4" := by
  refine ⟨?_, ?_⟩
  · have h := (quadrant_recompute_rule
      { title := "w", description := none, is_important := false,
        quadrant := "Q4", deadline_at := none, completed := false,
        completed_at := none, user_id := 1, created_at := 0 }
      { deadline_at := some (some 1440) }
      { title := "r", description := none, is_important := false,
        deadline_at := none } 1 0 0
      { id := 0, title := "m", description := none, is_important := false,
        is_urgent := false, quadrant := "Q4", completed := false,
        created_at := 0 } false).2.1 (Or.inr rfl)
    simpa using h
  · exact (quadrant_recompute_rule
      { title := "w", description := none, is_important := false,
        quadrant := "Q4", deadline_at := none, completed := false,
        completed_at := none, user_id := 1, created_at := 0 }
      { title := some "renamed" }
      { title := "r", description := none, is_important := false,
        deadline_at := none } 1 0 0
      { id := 0, title := "m", description := none, is_important := false,
        is_urgent := false, quadrant := "Q4", completed := false,
        created_at := 0 } false).2.2.1 rfl rfl

/-- C4: converting a naive local wall-clock instant to UTC and back for
the same user returns it unchanged, both for a stored offset in [-12, 14]
and for the default offset used when none is stored. -/
theorem timezone_round_trip (s : Bot.BotState) (chat t : Int) :
    (∀ off : Int, s.timezone_offsets chat = some off →
      -12 ≤ off → off ≤ 14 →
      Bot.utc_to_local s chat (Bot.local_to_utc s chat t) = t) ∧
    (s.timezone_offsets chat = none →
      Bot.utc_to_local s chat (Bot.local_to_utc s chat t) = t) := by
  constructor
  · intro off hoff h1 h2
    simp only [Bot.utc_to_local, Bot.local_to_utc, Bot.get_utc_offset_hours,
      hoff, Option.getD_some]
    omega
  · intro hnone
    simp only [Bot.utc_to_local, Bot.local_to_utc, Bot.get_utc_offset_hours,
      hnone, Option.getD_none]
    omega

/-- Witness for C4 at concrete inputs: a stored boundary offset (+14) and
the default-offset case. -/
theorem timezone_round_trip_witness :
    Bot.utc_to_local
        ⟨fun _ => none, fun c => if c = 7 then some 14 else none, fun _ => none⟩ 7
        (Bot.local_to_utc
          ⟨fun _ => none, fun c => if c = 7 then some 14 else none, fun _ => none⟩ 7 1000)
      = 1000 ∧
    Bot.utc_to_local
        ⟨fun _ => none, fun c => if c = 7 then some 14 else none, fun _ => none⟩ 8
        (Bot.local_to_utc
          ⟨fun _ => none, fun c => if c = 7 then some 14 else none, fun _ => none⟩ 8 1000)
      = 1000 := by
  refine ⟨(timezone_round_trip _ 7 1000).1 14 (by decide) (by decide) (by decide),
    (timezone_round_trip _ 8 1000).2 (by decide)⟩

/-- C8: a timezone offset outside [-12, 14] is rejected with the whole bot
state unchanged; any offset inside the range (boundaries included) is
accepted and overwrites the stored offset unconditionally, touching no
other chat's offset and no other session state. -/
theorem cmd_timezone_boundary (s : Bot.BotState) (chat off : Int) :
    ((off < -12 ∨ 14 < off) → Bot.cmd_timezone s chat off = (s, false)) ∧
    (-12 ≤ off → off ≤ 14 →
      (Bot.cmd_timezone s chat off).2 = true ∧
      (Bot.cmd_timezone s chat off).1.timezone_offsets chat = some off ∧
      (∀ v, v ≠ chat →
        (Bot.cmd_timezone s chat off).1.timezone_offsets v
          = s.timezone_offsets v) ∧
      (Bot.cmd_timezone s chat off).1.sessions = s.sessions ∧
      (Bot.cmd_timezone s chat off).1.last_reminder_sent
        = s.last_reminder_sent) := by
  constructor
  · intro h
    have hc : ¬(-12 ≤ off ∧ off ≤ 14) := by omega
    simp [Bot.cmd_timezone, hc]
  · intro h1 h2
    have hc : (-12 ≤ off ∧ off ≤ 14) := ⟨h1, h2⟩
    refine ⟨by simp [Bot.cmd_timezone, hc], by simp [Bot.cmd_timezone, hc],
      fun v hv => by simp [Bot.cmd_timezone, hc, hv],
      by simp [Bot.cmd_timezone, hc], by simp [Bot.cmd_timezone, hc]⟩

/-- Witness for C8 at the four boundary offsets 15, -13, 14, -12. -/
theorem cmd_timezone_boundary_witness :
    Bot.cmd_timezone ⟨fun _ => none, fun _ => none, fun _ => none⟩ 1 15
      = (⟨fun _ => none, fun _ => none, fun _ => none⟩, false) ∧
    Bot.cmd_timezone ⟨fun _ => none, fun _ => none, fun _ => none⟩ 1 (-13)
      = (⟨fun _ => none, fun _ => none, fun _ => none⟩, false) ∧
    (Bot.cmd_timezone ⟨fun _ => none, fun _ => none, fun _ => none⟩ 1 14).2
      = true ∧
    (Bot.cmd_timezone ⟨fun _ => none, fun _ => none, fun _ => none⟩
        1 14).1.timezone_offsets 1 = some 14 ∧
    (Bot.cmd_timezone ⟨fun _ => none, fun _ => none, fun _ => none⟩
        1 (-12)).2 = true ∧
    (Bot.cmd_timezone ⟨fun _ => none, fun _ => none, fun _ => none⟩
        1 (-12)).1.timezone_offsets 1 = some (-12) := by
  refine ⟨(cmd_timezone_boundary _ 1 15).1 (Or.inr (by decide)),
    (cmd_timezone_boundary _ 1 (-13)).1 (Or.inl (by decide)),
    ((cmd_timezone_boundary _ 1 14).2 (by decide) (by decide)).1,
    ((cmd_timezone_boundary _ 1 14).2 (by decide) (by decide)).2.1,
    ((cmd_timezone_boundary _ 1 (-12)).2 (by decide) (by decide)).1,
    ((cmd_timezone_boundary _ 1 (-12)).2 (by decide) (by decide)).2.1⟩

/-- Helper: processing one chat never touches another chat's
last-reminder timestamp. -/
theorem reminders_step_preserves_other
    (now : Int) (fetch : Int → Option (List Int)) (s : Bot.BotState)
    (c v : Int) (hv : v ≠ c) :
    (Bot.reminders_step now fetch s c).1.last_reminder_sent v
      = s.last_reminder_sent v := by
  unfold Bot.reminders_step Bot.reminders_try
  cases s.last_reminder_sent c <;> cases fetch c <;>
    simp only [] <;> (try split) <;> (try split) <;> simp [hv]

/-- Helper: a chat under cooldown (a last-reminder timestamp less than 24
hours old) is skipped with no state change. -/
theorem reminders_step_cooldown_skips
    (now : Int) (fetch : Int → Option (List Int)) (s : Bot.BotState)
    (c t : Int) (hlast : s.last_reminder_sent c = some t)
    (hcool : now - t < Bot.hours24) :
    Bot.reminders_step now fetch s c = (s, false) := by
  unfold Bot.reminders_step
  rw [hlast]
  simp [hcool]

/-- Helper: an eligible chat (no previous reminder, or one at least 24
hours old) with a successful fetch containing a task due between
yesterday and tomorrow is sent a reminder and gets
`last_reminder_sent = now`. -/
theorem reminders_step_sends
    (now : Int) (fetch : Int → Option (List Int)) (s : Bot.BotState)
    (u : Int) (ds : List Int)
    (helig : s.last_reminder_sent u = none ∨
      ∃ t, s.last_reminder_sent u = some t ∧ Bot.hours24 ≤ now - t)
    (hds : fetch u = some ds)
    (hd : ∃ d ∈ ds, -1 ≤ d ∧ d ≤ 1) :
    Bot.reminders_step now fetch s u =
      ({ s with last_reminder_sent :=
          fun c => if c = u then some now else s.last_reminder_sent c },
        true) := by
  have hfilter : (ds.filter (fun d => decide (-1 ≤ d ∧ d ≤ 1))).isEmpty = false := by
    rcases hd with ⟨d, hmem, h1, h2⟩
    have hmemf : d ∈ ds.filter (fun d => decide (-1 ≤ d ∧ d ≤ 1)) :=
      List.mem_filter.mpr ⟨hmem, by simp [h1, h2]⟩
    cases hf : ds.filter (fun d => decide (-1 ≤ d ∧ d ≤ 1)) with
    | nil => rw [hf] at hmemf; cases hmemf
    | cons a l => rfl
  have htry : Bot.reminders_try now fetch s u =
      ({ s with last_reminder_sent :=
          fun c => if c = u then some now else s.last_reminder_sent c },
        true) := by
    unfold Bot.reminders_try
    rw [hds]
    simp only [hfilter, Bool.false_eq_true, if_false]
  unfold Bot.reminders_step
  rcases helig with h | ⟨t, ht, helapsed⟩
  · rw [h]
    exact htry
  · rw [ht]
    have hn : ¬(now - t < Bot.hours24) := by omega
    simp only [hn, if_false]
    exact htry

/-- Helper: every chat in the sent list of a cycle is among the processed
chats. -/
theorem reminders_cycle_sent_subset
    (now : Int) (fetch : Int → Option (List Int)) (s : Bot.BotState)
    (chats : List Int) (v : Int)
    (hv : v ∈ (Bot.reminders_cycle now fetch s chats).2) : v ∈ chats := by
  induction chats generalizing s with
  | nil => simp [Bot.reminders_cycle] at hv
  | cons c rest ih =>
    simp only [Bot.reminders_cycle] at hv
    by_cases hr : (Bot.reminders_step now fetch s c).2 = true
    · rw [if_pos hr] at hv
      rcases List.mem_cons.mp hv with h | h
      · exact h ▸ List.mem_cons_self c rest
      · exact List.mem_cons_of_mem c (ih _ h)
    · rw [if_neg hr] at hv
      exact List.mem_cons_of_mem c (ih _ hv)

/-- Helper: a cycle leaves the last-reminder timestamp of any chat outside
the processed list untouched. -/
theorem reminders_cycle_preserves_unprocessed
    (now : Int) (fetch : Int → Option (List Int)) (s : Bot.BotState)
    (chats : List Int) (v : Int) (hv : v ∉ chats) :
    (Bot.reminders_cycle now fetch s chats).1.last_reminder_sent v
      = s.last_reminder_sent v := by
  induction chats generalizing s with
  | nil => rfl
  | cons c rest ih =>
    have hvc : v ≠ c := fun h => hv (h ▸ List.mem_cons_self c rest)
    have hvrest : v ∉ rest := fun h => hv (List.mem_cons_of_mem c h)
    simp only [Bot.reminders_cycle]
    rw [ih _ hvrest, reminders_step_preserves_other now fetch s c v hvc]

/-- Helper: a chat whose last reminder is less than 24 hours old receives
nothing in the cycle and keeps its timestamp. -/
theorem reminders_cycle_cooldown
    (now : Int) (fetch : Int → Option (List Int)) (s : Bot.BotState)
    (chats : List Int) (u t : Int)
    (hlast : s.last_reminder_sent u = some t)
    (hcool : now - t < Bot.hours24) :
    u ∉ (Bot.reminders_cycle now fetch s chats).2 ∧
    (Bot.reminders_cycle now fetch s chats).1.last_reminder_sent u
      = some t := by
  induction chats generalizing s with
  | nil => exact ⟨by simp [Bot.reminders_cycle], hlast⟩
  | cons c rest ih =>
    by_cases hc : c = u
    · subst hc
      have hstep := reminders_step_cooldown_skips now fetch s c t hlast hcool
      simp only [Bot.reminders_cycle, hstep]
      have := ih s hlast
      simpa using this
    · have hpres : (Bot.reminders_step now fetch s c).1.last_reminder_sent u
          = some t := by
        rw [reminders_step_preserves_other now fetch s c u
          (fun h => hc h.symm)]
        exact hlast
      have := ih (Bot.reminders_step now fetch s c).1 hpres
      simp only [Bot.reminders_cycle]
      refine ⟨?_, this.2⟩
      rcases hr : (Bot.reminders_step now fetch s c).2 with _ | _
      · simpa using this.1
      · simp only [if_true]
        intro hmem
        rcases List.mem_cons.mp hmem with h | h
        · exact hc h.symm
        · exact this.1 h

/-- Helper: an eligible chat with a due task is sent exactly one reminder
in the cycle and ends with `last_reminder_sent = now`. -/
theorem reminders_cycle_sends_once
    (now : Int) (fetch : Int → Option (List Int)) (s : Bot.BotState)
    (chats : List Int) (u : Int) (ds : List Int)
    (hnd : chats.Nodup) (hu : u ∈ chats)
    (helig : s.last_reminder_sent u = none ∨
      ∃ t, s.last_reminder_sent u = some t ∧ Bot.hours24 ≤ now - t)
    (hds : fetch u = some ds)
    (hd : ∃ d ∈ ds, -1 ≤ d ∧ d ≤ 1) :
    (Bot.reminders_cycle now fetch s chats).2.count u = 1 ∧
    (Bot.reminders_cycle now fetch s chats).1.last_reminder_sent u
      = some now := by
  induction chats generalizing s with
  | nil => cases hu
  | cons c rest ih =>
    have hndrest : rest.Nodup := (List.nodup_cons.mp hnd).2
    have hcnotin : c ∉ rest := (List.nodup_cons.mp hnd).1
    by_cases hc : c = u
    · subst hc
      have hunotin : c ∉ rest := hcnotin
      have hstep := reminders_step_sends now fetch s c ds helig hds hd
      simp only [Bot.reminders_cycle, hstep]
      constructor
      · have hnotin : c ∉ (Bot.reminders_cycle now fetch
            ({ s with last_reminder_sent :=
                fun v => if v = c then some now else s.last_reminder_sent v })
            rest).2 :=
          fun h => hunotin (reminders_cycle_sent_subset now fetch _ rest c h)
        simp [List.count_cons, List.count_eq_zero.mpr hnotin]
      · rw [reminders_cycle_preserves_unprocessed now fetch _ rest c hunotin]
        simp
    · have hurest : u ∈ rest := by
        rcases List.mem_cons.mp hu with h | h
        · exact absurd h.symm hc
        · exact h
      have hpres : (Bot.reminders_step now fetch s c).1.last_reminder_sent u
          = s.last_reminder_sent u :=
        reminders_step_preserves_other now fetch s c u (fun h => hc h.symm)
      have helig' : (Bot.reminders_step now fetch s c).1.last_reminder_sent u
            = none ∨
          ∃ t, (Bot.reminders_step now fetch s c).1.last_reminder_sent u
            = some t ∧ Bot.hours24 ≤ now - t := by
        rw [hpres]; exact helig
      have := ih (Bot.reminders_step now fetch s c).1 hndrest hurest helig'
      simp only [Bot.reminders_cycle]
      refine ⟨?_, this.2⟩
      rcases hr : (Bot.reminders_step now fetch s c).2 with _ | _
      · simpa using this.1
      · simp only [if_true, List.count_cons]
        have : u ≠ c := fun h => hc h.symm
        simp [this.symm]
        omega

/-- C2: within one poll cycle (with its captured `now` and the set of
known sessions), a user whose last reminder is less than 24 hours old is
sent nothing; a user sent a reminder this cycle was last reminded at
least 24 hours ago; and an eligible user (never reminded, or reminded at
least 24 hours ago) with a fetched incomplete task whose days-remaining
lies in [-1, 1] is sent exactly one aggregate reminder, with
`lastReminderSentAt` set to `now` — so no user receives two reminders
within a 24-hour period. -/
theorem reminders_cooldown_and_single_send
    (now : Int) (fetch : Int → Option (List Int)) (s : Bot.BotState)
    (chats : List Int) (u : Int) (hnd : chats.Nodup) (hu : u ∈ chats) :
    (∀ t, s.last_reminder_sent u = some t → now - t < Bot.hours24 →
      u ∉ (Bot.reminders_cycle now fetch s chats).2) ∧
    (∀ t, s.last_reminder_sent u = some t →
      u ∈ (Bot.reminders_cycle now fetch s chats).2 →
      Bot.hours24 ≤ now - t) ∧
    ((s.last_reminder_sent u = none ∨
        ∃ t, s.last_reminder_sent u = some t ∧ Bot.hours24 ≤ now - t) →
      ∀ ds, fetch u = some ds → (∃ d ∈ ds, -1 ≤ d ∧ d ≤ 1) →
        (Bot.reminders_cycle now fetch s chats).2.count u = 1 ∧
        (Bot.reminders_cycle now fetch s chats).1.last_reminder_sent u
          = some now) := by
  refine ⟨fun t ht hcool =>
      (reminders_cycle_cooldown now fetch s chats u t ht hcool).1,
    fun t ht hmem => ?_,
    fun helig ds hds hd =>
      reminders_cycle_sends_once now fetch s chats u ds hnd hu helig hds hd⟩
  by_contra hlt
  exact (reminders_cycle_cooldown now fetch s chats u t ht (by omega)).1 hmem

/-- Witness for C2 at the spec's two scenarios: last reminder 23 hours ago
with a task due tomorrow ⇒ nothing sent; last reminder 25 hours ago with
a task due yesterday ⇒ exactly one reminder and the timestamp becomes
`now` (times in minutes: 23h = 1380, 25h = 1500). -/
theorem reminders_cooldown_and_single_send_witness :
    (1 : Int) ∉ (Bot.reminders_cycle 1380 (fun _ => some [1])
        ⟨fun _ => none, fun _ => none,
          fun c => if c = 1 then some 0 else none⟩ [1]).2 ∧
    (Bot.reminders_cycle 1500 (fun _ => some [-1])
        ⟨fun _ => none, fun _ => none,
          fun c => if c = 1 then some 0 else none⟩ [1]).2.count 1 = 1 ∧
    (Bot.reminders_cycle 1500 (fun _ => some [-1])
        ⟨fun _ => none, fun _ => none,
          fun c => if c = 1 then some 0 else none⟩
        [1]).1.last_reminder_sent 1 = some 1500 := by
  refine ⟨(reminders_cooldown_and_single_send 1380 (fun _ => some [1])
      ⟨fun _ => none, fun _ => none,
        fun c => if c = 1 then some 0 else none⟩ [1] 1
      (by simp) (by simp)).1 0 (by decide) (by decide), ?_⟩
  have h := (reminders_cooldown_and_single_send 1500 (fun _ => some [-1])
      ⟨fun _ => none, fun _ => none,
        fun c => if c = 1 then some 0 else none⟩ [1] 1
      (by simp) (by simp)).2.2
    (Or.inr ⟨0, by decide, by decide⟩) [-1] rfl
    ⟨-1, by decide, by decide, by decide⟩
  exact h

/-- C10: logging out removes only the user's session entry; the timezone
offset and last-reminder timestamp survive a logout and re-login, so a
cycle run while the original 24-hour cooldown is still active sends the
re-logged-in user nothing. -/
theorem logout_preserves_cooldown
    (s : Bot.BotState) (u t0 : Int) (tok em : String)
    (h : s.last_reminder_sent u = some t0) :
    (Bot.cmd_logout s u).sessions u = none ∧
    (∀ v, v ≠ u → (Bot.cmd_logout s u).sessions v = s.sessions v) ∧
    (Bot.cmd_logout s u).timezone_offsets = s.timezone_offsets ∧
    (Bot.cmd_logout s u).last_reminder_sent = s.last_reminder_sent ∧
    (Bot.login_password (Bot.cmd_logout s u) u tok em).sessions u
      = some ⟨tok, em⟩ ∧
    (Bot.login_password (Bot.cmd_logout s u) u tok em).timezone_offsets
      = s.timezone_offsets ∧
    (Bot.login_password (Bot.cmd_logout s u) u tok em).last_reminder_sent
      = s.last_reminder_sent ∧
    (∀ now fetch chats, now - t0 < Bot.hours24 →
      u ∉ (Bot.reminders_cycle now fetch
        (Bot.login_password (Bot.cmd_logout s u) u tok em) chats).2) := by
  refine ⟨by simp [Bot.cmd_logout], fun v hv => by simp [Bot.cmd_logout, hv],
    rfl, rfl, by simp [Bot.login_password], rfl, rfl,
    fun now fetch chats hcool => ?_⟩
  have h2 : (Bot.login_password (Bot.cmd_logout s u) u tok
      em).last_reminder_sent u = some t0 := h
  exact (reminders_cycle_cooldown now fetch
    (Bot.login_password (Bot.cmd_logout s u) u tok em) chats u t0 h2 hcool).1

/-- Witness for C10 at a concrete input: a user reminded at minute 100
logs out and back in; at minute 1000 (15 hours later) the cycle sends
them nothing and their offset is intact. -/
theorem logout_preserves_cooldown_witness :
    (Bot.login_password
        (Bot.cmd_logout
          ⟨fun c => if c = 1 then some ⟨"tok", "e"⟩ else none,
            fun c => if c = 1 then some 5 else none,
            fun c => if c = 1 then some 100 else none⟩ 1)
        1 "tok2" "e").timezone_offsets
      = (⟨fun c => if c = 1 then some ⟨"tok", "e"⟩ else none,
          fun c => if c = 1 then some 5 else none,
          fun c => if c = 1 then some 100 else none⟩ :
            Bot.BotState).timezone_offsets ∧
    (1 : Int) ∉ (Bot.reminders_cycle 1000 (fun _ => some [0])
        (Bot.login_password
          (Bot.cmd_logout
            ⟨fun c => if c = 1 then some ⟨"tok", "e"⟩ else none,
              fun c => if c = 1 then some 5 else none,
              fun c => if c = 1 then some 100 else none⟩ 1)
          1 "tok2" "e") [1]).2 := by
  have h := logout_preserves_cooldown
    ⟨fun c => if c = 1 then some ⟨"tok", "e"⟩ else none,
      fun c => if c = 1 then some 5 else none,
      fun c => if c = 1 then some 100 else none⟩ 1 100 "tok2" "e"
    (by decide)
  exact ⟨h.2.2.2.2.2.1, h.2.2.2.2.2.2.2 1000 (fun _ => some [0]) [1]
    (by decide)⟩
